import Mathlib

/-!
Verification of the Ticket_Categorization_Automation repository.

Shallow embedding of:
  * `ticket_classifier/data_loader.py` (load_ticket / load_categories / load_data)
  * `ticket_classifier/llm_client.py` (LLMClient: function_schema, _build_messages, classify)
  * `ticket_classifier/config.py` (process configuration)
  * `main.py` (main entry point: exit codes and error stream)

Python's `json` module values are embedded as the inductive `Json`; `json.loads` /
`json.load` are modelled by an executable recursive-descent parser `jsonParse`
covering null, booleans, integers, strings (with the common escapes) and
arbitrarily nested arrays and objects.  Object member order is kept, matching
Python dict insertion order.
-/

namespace TicketCat

/-- A JSON value, as produced by Python's `json.loads`.  Numbers are restricted
to integers (all numeric literals appearing in this repository's data are
integers); object members keep their textual order, as Python dicts do. -/
inductive Json where
  | null : Json
  | bool (b : Bool) : Json
  | num (n : Int) : Json
  | str (s : String) : Json
  | arr (elems : List Json) : Json
  | obj (members : List (String × Json)) : Json

/-- Skip JSON whitespace. -/
def skipWs : List Char → List Char
  | c :: cs => if c = ' ' ∨ c = '\n' ∨ c = '\t' ∨ c = '\r' then skipWs cs else c :: cs
  | [] => []

/-- Decode one string-escape character. -/
def escChar (e : Char) : Option Char :=
  if e = 'n' then some '\n'
  else if e = 't' then some '\t'
  else if e = 'r' then some '\r'
  else if e = 'b' then some (Char.ofNat 8)
  else if e = 'f' then some (Char.ofNat 12)
  else if e = '"' ∨ e = '\\' ∨ e = '/' then some e
  else none

/-- Scan the body of a JSON string (the opening quote already consumed),
returning the decoded characters and the rest of the input. -/
def parseStringBody : List Char → Option (List Char × List Char)
  | [] => none
  | c :: cs =>
    if c = '"' then some ([], cs)
    else if c = '\\' then
      match cs with
      | [] => none
      | e :: cs' =>
        match escChar e with
        | some d => (parseStringBody cs').map (fun p => (d :: p.1, p.2))
        | none => none
    else (parseStringBody cs).map (fun p => (c :: p.1, p.2))

/-- Take a maximal run of decimal digits. -/
def takeDigits : List Char → (List Char × List Char)
  | c :: cs =>
    if c.isDigit then
      let p := takeDigits cs
      (c :: p.1, p.2)
    else ([], c :: cs)
  | [] => ([], [])

/-- Digits to a natural number. -/
def digitsToNat (ds : List Char) : Nat :=
  ds.foldl (fun a c => a * 10 + (c.toNat - 48)) 0

/-- Parse an unsigned integer literal; rejects a following `.`/`e`/`E`
(floating-point numbers are outside the embedded fragment). -/
def parseNatLit (cs : List Char) : Option (Nat × List Char) :=
  let p := takeDigits cs
  match p.1 with
  | [] => none
  | _ =>
    match p.2 with
    | '.' :: _ => none
    | 'e' :: _ => none
    | 'E' :: _ => none
    | rest => some (digitsToNat p.1, rest)

/-- Parsing mode: one value, the tail of a non-empty array, or the tail of a
non-empty object.  A single mode-indexed function (rather than three mutually
recursive ones) keeps the recursion structural on the fuel, so that all proofs
reduce inside the kernel. -/
inductive PMode where
  | value : PMode
  | elems : PMode
  | members : PMode

/-- Parse in mode `m`; `fuel` bounds recursion depth.  Mode `elems` returns
`Json.arr` of the remaining elements up to `]`; mode `members` returns
`Json.obj` of the remaining members up to the closing brace. -/
def parseJ : Nat → PMode → List Char → Option (Json × List Char)
  | 0, _, _ => none
  | fuel + 1, .value, cs =>
    (match skipWs cs with
     | '"' :: cs' => (parseStringBody cs').map (fun p => (Json.str (String.mk p.1), p.2))
     | 't' :: 'r' :: 'u' :: 'e' :: cs' => some (Json.bool true, cs')
     | 'f' :: 'a' :: 'l' :: 's' :: 'e' :: cs' => some (Json.bool false, cs')
     | 'n' :: 'u' :: 'l' :: 'l' :: cs' => some (Json.null, cs')
     | '[' :: cs' =>
       (match skipWs cs' with
        | ']' :: rest => some (Json.arr [], rest)
        | cs'' => parseJ fuel .elems cs'')
     | '{' :: cs' =>
       (match skipWs cs' with
        | '}' :: rest => some (Json.obj [], rest)
        | cs'' => parseJ fuel .members cs'')
     | '-' :: cs' => (parseNatLit cs').map (fun p => (Json.num (-(p.1 : Int)), p.2))
     | c :: cs' =>
       if c.isDigit then (parseNatLit (c :: cs')).map (fun p => (Json.num (p.1 : Int), p.2))
       else none
     | [] => none)
  | fuel + 1, .elems, cs =>
    (match parseJ fuel .value cs with
     | none => none
     | some (v, rest) =>
       match skipWs rest with
       | ',' :: rest' =>
         (match parseJ fuel .elems rest' with
          | some (Json.arr vs, rest'') => some (Json.arr (v :: vs), rest'')
          | _ => none)
       | ']' :: rest' => some (Json.arr [v], rest')
       | _ => none)
  | fuel + 1, .members, cs =>
    (match skipWs cs with
     | '"' :: cs' =>
       (match parseStringBody cs' with
        | none => none
        | some (key, rest) =>
          match skipWs rest with
          | ':' :: rest' =>
            (match parseJ fuel .value rest' with
             | none => none
             | some (v, rest'') =>
               match skipWs rest'' with
               | ',' :: rest3 =>
                 (match parseJ fuel .members rest3 with
                  | some (Json.obj kvs, rest4) =>
                    some (Json.obj ((String.mk key, v) :: kvs), rest4)
                  | _ => none)
               | '}' :: rest3 => some (Json.obj [(String.mk key, v)], rest3)
               | _ => none)
          | _ => none)
     | _ => none)

/-- `json.loads`: parse a complete JSON document; the whole input must be
consumed (apart from trailing whitespace). -/
def jsonParse (s : String) : Option Json :=
  match parseJ (2 * s.length + 2) .value s.data with
  | some (v, rest) =>
    match skipWs rest with
    | [] => some v
    | _ => none
  | none => none

/-! ## `ticket_classifier/data_loader.py` -/

/-- Outcome of opening and reading a file: embeds Python `open`+`read`, which
either raises `FileNotFoundError`, raises another `OSError`, or returns the
file contents. -/
inductive ReadResult where
  | notFound : ReadResult
  | osError : ReadResult
  | content (s : String) : ReadResult

/-- A file system: what opening each path yields. -/
abbrev FS : Type := String → ReadResult

/-- The two exception classes defined in `data_loader.py`, carrying their
message strings. -/
inductive LoadErr where
  | ticketLoadError (msg : String) : LoadErr
  | categoriesLoadError (msg : String) : LoadErr
deriving DecidableEq

/-- `load_ticket`: read the ticket file, mapping `FileNotFoundError` and
`OSError` to `TicketLoadError` with the messages used in the source. -/
def load_ticket (fs : FS) (path : String) : Except LoadErr String :=
  match fs path with
  | .content s => .ok s
  | .notFound => .error (.ticketLoadError ("Ticket file not found: " ++ path))
  | .osError => .error (.ticketLoadError ("Error reading ticket file: " ++ path))

/-- `load_categories`: read the categories file and `json.load` it, mapping
`FileNotFoundError` to one message and `json.JSONDecodeError`/`OSError` to the
other, exactly as in the source.  The parsed value is returned as-is: the
source performs no shape check on it. -/
def load_categories (fs : FS) (path : String) : Except LoadErr Json :=
  match fs path with
  | .notFound => .error (.categoriesLoadError ("Categories file not found: " ++ path))
  | .osError => .error (.categoriesLoadError ("Error loading categories: " ++ path))
  | .content s =>
    match jsonParse s with
    | some v => .ok v
    | none => .error (.categoriesLoadError ("Error loading categories: " ++ path))

/-- `load_data`, instrumented with the list of paths opened, in order: the
source body is `ticket_text = load_ticket(ticket_path)` followed by
`raw_categories = load_categories(categories_path)`, so the categories path is
opened only after the ticket file has been read successfully. -/
def load_dataT (fs : FS) (ticketPath categoriesPath : String) :
    Except LoadErr (String × Json) × List String :=
  match load_ticket fs ticketPath with
  | .error e => (.error e, [ticketPath])
  | .ok t =>
    match load_categories fs categoriesPath with
    | .error e => (.error e, [ticketPath, categoriesPath])
    | .ok c => (.ok (t, c), [ticketPath, categoriesPath])

/-- `load_data`: the returned value alone. -/
def load_data (fs : FS) (ticketPath categoriesPath : String) :
    Except LoadErr (String × Json) :=
  (load_dataT fs ticketPath categoriesPath).1

/-! ## `ticket_classifier/config.py` and client construction -/

/-- The process-wide configuration of `config.py`: `OPENAI_API_KEY` is
`os.getenv("OPENAI_API_KEY")`, hence `none` when the variable is absent from
the environment and the `.env` file; `MODEL` and `TIMEOUT_SECONDS` default to
`"gpt-4.1"` and `60`. -/
structure Config where
  apiKey : Option String
  model : String
  timeout : Nat

/-- Exception kinds that can be raised at runtime by the code under
embedding (stdlib and OpenAI SDK classes; the repository defines no
classification-specific exception classes of its own beyond the two in
`data_loader.py`). -/
inductive PyExn where
  | openAIError : PyExn
  | apiTimeoutError : PyExn
  | apiStatusError (status : Nat) : PyExn
  | attributeError : PyExn
  | jsonDecodeError : PyExn
  | typeError : PyExn
deriving DecidableEq

/-- The state of a constructed `LLMClient`. -/
structure Client where
  apiKey : String
  model : String
  timeout : Nat
deriving DecidableEq

/-- `LLMClient.__init__`: `OpenAI(api_key=OPENAI_API_KEY)`.  The OpenAI SDK
constructor raises `OpenAIError` when the resolved key is `None` (documented
SDK behaviour: the api_key client option must be set); no network traffic is
involved in construction. -/
def llmClientInit (cfg : Config) : Except PyExn Client :=
  match cfg.apiKey with
  | none => .error .openAIError
  | some k => .ok { apiKey := k, model := cfg.model, timeout := cfg.timeout }

/-! ## `ticket_classifier/llm_client.py` -/

/-- `self.function_schema`: the structured-output function declaration, as the
dict literal in `LLMClient.__init__`, member order preserved. -/
def function_schema : Json :=
  Json.obj
    [("name", Json.str "classify_ticket"),
     ("description", Json.str "Return structured classification for cases 1, 2, and 3"),
     ("parameters", Json.obj
       [("type", Json.str "object"),
        ("properties", Json.obj
          [("case_1", Json.obj
            [("type", Json.str "object"),
             ("properties", Json.obj
               [("category", Json.obj [("type", Json.str "string")]),
                ("subcategory", Json.obj [("type", Json.str "string")])]),
             ("required", Json.arr [Json.str "category", Json.str "subcategory"])]),
           ("case_2", Json.obj
            [("type", Json.str "array"),
             ("items", Json.obj
               [("type", Json.str "object"),
                ("properties", Json.obj
                  [("category", Json.obj [("type", Json.str "string")]),
                   ("subcategories", Json.obj
                     [("type", Json.str "array"),
                      ("items", Json.obj [("type", Json.str "string")])]),
                   ("reason", Json.obj
                     [("type", Json.str "array"),
                      ("items", Json.obj [("type", Json.str "string")])])]),
                ("required", Json.arr
                  [Json.str "category", Json.str "subcategories", Json.str "reason"])])]),
           ("case_3", Json.obj
            [("type", Json.str "array"),
             ("items", Json.obj
               [("type", Json.str "object"),
                ("properties", Json.obj
                  [("category", Json.obj [("type", Json.str "string")]),
                   ("subcategories", Json.obj
                     [("type", Json.str "array"),
                      ("items", Json.obj [("type", Json.str "string")])]),
                   ("comment", Json.obj [("type", Json.str "string")])]),
                ("required", Json.arr
                  [Json.str "category", Json.str "subcategories", Json.str "comment"])])])]),
        ("required", Json.arr [Json.str "case_1", Json.str "case_2", Json.str "case_3"])])]

/-- The fixed prompt template text before the interpolated ticket text (the
f-string in `_build_messages`, byte for byte, tabs and trailing spaces
included). -/
def promptPre : String :=
  "\nPart 1: Single Category Classification (Static)\nFirst, imagine the requirements are simple. The program only needs to find the primary issue type in a ticket.\n-\tTask: Write a function or script that analyzes the issue and identifies the single most prominent category and its corresponding subcategory.  \n-\tCategories: For this part, assume a fixed, hard-coded list of categories:\n-\tIssue Type: (Subcategories: Bug, Feature Request, Documentation, Other)\n-\tPriority: (Subcategories: Critical, High, Medium, Low)\nPart 2: Multi-Issue Extraction\nSupport tickets often contain multiple aspects that need to be classified. Your program must be able to capture all of them.\n\n-\tTask: Evolve your script to extract a list of all categories and their most specific subcategories present in the ticket description.  \n-\tExample: For the sample support ticket provided, your program should identify multiple aspects such as \"Issue Type\", \"Priority\", and \"Component\".\n\nPart 3: Dynamic and Nested Category Loading\nOur clients want to manage their own categories without needing a developer to update the code. Your script must be flexible enough to handle this.\n-\tTask: Adapt your script so that it no longer uses a hard-coded list. Instead, it must read the categories from the provided categories.json file at runtime. The script must be able to parse the nested structure of this file and handle varying levels of depth\n\nSupport ticket:\n"

/-- The template text between the ticket text and the rendered paths. -/
def promptMid : String := "\n\nPossible category paths:\n"

/-- The template text after the rendered paths. -/
def promptSuf : String := "\n\nRespond using the structured output function.\n"

/-- The rendering of `category_paths` in `_build_messages`:
`"\n".join([" > ".join(path) for path in category_paths])`. -/
def pathsStrOf (categoryPaths : List (List String)) : String :=
  String.intercalate "\n" (categoryPaths.map (fun path => String.intercalate " > " path))

/-- The full user prompt, as the f-string interpolation of the ticket text and
an already-rendered paths string. -/
def promptOf (ticketText pathsStr : String) : String :=
  promptPre ++ ticketText ++ promptMid ++ pathsStr ++ promptSuf

/-- The message list returned by `_build_messages`, as (role, content) pairs,
with an already-rendered paths string. -/
def buildMessagesStr (ticketText pathsStr : String) : List (String × String) :=
  [("system", "You are a ticket classification assistant."),
   ("user", promptOf ticketText pathsStr)]

/-- `LLMClient._build_messages` at its annotated argument type
`List[List[str]]`. -/
def build_messages (ticketText : String) (categoryPaths : List (List String)) :
    List (String × String) :=
  buildMessagesStr ticketText (pathsStrOf categoryPaths)

/-- One request to `chat.completions.create`, with every parameter the source
passes. -/
structure Request where
  model : String
  messages : List (String × String)
  functions : List Json
  functionCallName : String
  temperature : Int
  timeoutSeconds : Nat

/-- What the external service does with the single request `classify` sends:
the call times out, fails at transport level with a status, or yields a
response message whose `function_call` is absent (`None`) or carries a
function name and an arguments string. -/
inductive ApiOutcome where
  | timeout : ApiOutcome
  | transportFault (status : Nat) : ApiOutcome
  | success (functionCall : Option (String × String)) : ApiOutcome

/-- The body of `LLMClient.classify` after `_build_messages`: one
`chat.completions.create` call (no retry logic exists in the source), then
`response.choices[0].message.function_call.arguments` and `json.loads`.
Returns the list of requests issued together with the result.  Note what the
source does on each outcome: an SDK timeout or transport exception propagates
unchanged; a response without `function_call` raises `AttributeError` (the
attribute access on `None`); the name inside `function_call` is never
inspected, its `arguments` string is `json.loads`-ed whatever the name is. -/
def classifyCore (client : Client) (messages : List (String × String))
    (outcome : ApiOutcome) : List Request × Except PyExn Json :=
  let req : Request :=
    { model := client.model
      messages := messages
      functions := [function_schema]
      functionCallName := "classify_ticket"
      temperature := 0
      timeoutSeconds := client.timeout }
  ([req],
   match outcome with
   | .timeout => .error .apiTimeoutError
   | .transportFault s => .error (.apiStatusError s)
   | .success none => .error .attributeError
   | .success (some fc) =>
     match jsonParse fc.2 with
     | none => .error .jsonDecodeError
     | some v => .ok v)

/-- `LLMClient.classify` at its annotated argument type `List[List[str]]`. -/
def classify (client : Client) (ticketText : String)
    (categoryPaths : List (List String)) (outcome : ApiOutcome) :
    List Request × Except PyExn Json :=
  classifyCore client (build_messages ticketText categoryPaths) outcome

/-! ## `main.py`

`main` calls `client.classify(ticket_text, categories)` with the raw parsed
JSON taxonomy (`main.py` line 136), although `classify` annotates the second
parameter as `List[List[str]]`.  Python duck typing makes
`" > ".join(path)` iterate whatever it is given, so the embedding models
Python iteration over a JSON value. -/

/-- Python iteration over a value: a list yields its elements, a dict yields
its keys (insertion order), a string yields its characters as one-character
strings; anything else raises `TypeError` (`none`). -/
def pyIter : Json → Option (List Json)
  | .arr es => some es
  | .obj kvs => some (kvs.map (fun kv => Json.str kv.1))
  | .str s => some (s.data.map (fun c => Json.str (String.mk [c])))
  | _ => none

/-- Python `sep.join(x)`: iterate `x`; every item must be a `str`, otherwise
`TypeError` (`none`). -/
def pyJoin (sep : String) (x : Json) : Option String := do
  let items ← pyIter x
  let strs ← items.mapM (fun item =>
    match item with
    | Json.str s => some s
    | _ => none)
  pure (String.intercalate sep strs)

/-- The value `"\n".join(" > ".join(path) for path in category_paths)`
computes when `category_paths` is an arbitrary JSON value, as happens when
`main` passes the raw taxonomy; `none` is a `TypeError`. -/
def pyRenderPaths (categoryPaths : Json) : Option String := do
  let paths ← pyIter categoryPaths
  let rendered ← paths.mapM (pyJoin " > ")
  pure (String.intercalate "\n" rendered)

/-- What one run of `main` produces: the process exit code, the lines printed
to stderr, and the requests that reached the LLM service.  (The stdout report
of `format_classification_result` and the optional `--output` file are not
modelled; no claim concerns them.) -/
structure MainResult where
  exitCode : Nat
  stderrLines : List String
  requests : List Request

/-- Message text of each embedded exception, as printed by `main`'s
`except Exception` handler. -/
def pyExnMsg : PyExn → String
  | .openAIError => "The api_key client option must be set either by passing api_key to the client or by setting the OPENAI_API_KEY environment variable"
  | .apiTimeoutError => "Request timed out."
  | .apiStatusError s => "API status error " ++ toString s
  | .attributeError => "NoneType object has no attribute arguments"
  | .jsonDecodeError => "Expecting value: line 1 column 1 (char 0)"
  | .typeError => "sequence item 0: expected str instance"

/-- Message carried by a load error. -/
def loadErrMsg : LoadErr → String
  | .ticketLoadError m => m
  | .categoriesLoadError m => m

/-- `main()`: load both inputs, construct the client, classify, and map every
raised exception to exit code 1 with a single `print(f"Error: ...")` on
stderr; return 0 on success.  The raw taxonomy is passed to `classify`, so
the paths rendering happens inside `_build_messages` before the request is
sent, and a `TypeError` there aborts the run with no request issued. -/
def mainRun (fs : FS) (ticketPath categoriesPath : String) (cfg : Config)
    (outcome : ApiOutcome) : MainResult :=
  match load_data fs ticketPath categoriesPath with
  | .error e => { exitCode := 1, stderrLines := ["Error: " ++ loadErrMsg e], requests := [] }
  | .ok tc =>
    match llmClientInit cfg with
    | .error e => { exitCode := 1, stderrLines := ["Error: " ++ pyExnMsg e], requests := [] }
    | .ok client =>
      match pyRenderPaths tc.2 with
      | none =>
        { exitCode := 1, stderrLines := ["Error: " ++ pyExnMsg .typeError], requests := [] }
      | some ps =>
        match classifyCore client (buildMessagesStr tc.1 ps) outcome with
        | (reqs, .error e) =>
          { exitCode := 1, stderrLines := ["Error: " ++ pyExnMsg e], requests := reqs }
        | (reqs, .ok _) => { exitCode := 0, stderrLines := [], requests := reqs }

/-! ## The taxonomy normalizer of the spec

No flattening code exists anywhere in the repository: `main.py` passes the
raw parsed taxonomy to `classify`, and the `__main__` block of
`llm_client.py` says in a comment that `flatten_category_paths` is yet to be
implemented and passes `raw_cats` directly. -/

/-- A taxonomy node: `value` plus ordered subcategories (the optional
`description` field plays no role in flattening). -/
inductive CategoryNode where
  | node (value : String) (subcategories : List CategoryNode) : CategoryNode

/-- Modelled from the spec: `flatten(forest)` — missing from the repository —
performs a depth-first pre-order traversal, emits one root-to-leaf path per
terminal node (leaf-only policy), and preserves sibling order. -/
def flatten : List CategoryNode → List (List String)
  | [] => []
  | .node v [] :: rest => [v] :: flatten rest
  | .node v (s :: ss) :: rest =>
    (flatten (s :: ss)).map (fun p => v :: p) ++ flatten rest

/-- Look up a key in a JSON object (first occurrence). -/
def jGet (j : Json) (key : String) : Option Json :=
  match j with
  | .obj kvs => (kvs.find? (fun kv => kv.1 == key)).map (fun kv => kv.2)
  | _ => none

/-- Chain of `jGet` lookups along a key path. -/
def jPath (j : Json) : List String → Option Json
  | [] => some j
  | k :: ks =>
    match jGet j k with
    | some j' => jPath j' ks
    | none => none

/-! ## Shared concrete examples -/

/-- The scenario-1 taxonomy as nodes. -/
def exForest : List CategoryNode :=
  [CategoryNode.node "Issue Type"
    [CategoryNode.node "Bug" [], CategoryNode.node "Feature Request" []]]

/-- The scenario-1 taxonomy as the parsed JSON `main` actually holds. -/
def exRawTaxonomy : Json :=
  Json.arr
    [Json.obj
      [("value", Json.str "Issue Type"),
       ("subcategories", Json.arr
         [Json.obj [("value", Json.str "Bug")],
          Json.obj [("value", Json.str "Feature Request")]])]]

/-- A constructed client with the default model and timeout. -/
def exClient : Client := { apiKey := "sk-test", model := "gpt-4.1", timeout := 60 }

/-- The same client but with a 61-second timeout. -/
def exClient61 : Client := { apiKey := "sk-test", model := "gpt-4.1", timeout := 61 }

/-- A configuration with a credential present. -/
def exCfg : Config := { apiKey := some "sk-test", model := "gpt-4.1", timeout := 60 }

/-- A file system holding the scenario ticket and the scenario-1 taxonomy. -/
def exFS : FS := fun p =>
  if p = "ticket.txt" then .content "App crashes on login"
  else if p = "categories.json" then
    .content "[\x7b\"value\": \"Issue Type\", \"subcategories\": [\x7b\"value\": \"Bug\"\x7d, \x7b\"value\": \"Feature Request\"\x7d]\x7d]"
  else .notFound

/-- A well-formed service response for the scenario ticket. -/
def exGoodOutcome : ApiOutcome :=
  .success (some ("classify_ticket",
    "\x7b\"case_1\": \x7b\"category\": \"Issue Type\", \"subcategory\": \"Bug\"\x7d, \"case_2\": [], \"case_3\": []\x7d"))

/-- A file system whose categories file holds invalid JSON. -/
def exFSBad : FS := fun p =>
  if p = "ticket.txt" then .content "Hi"
  else if p = "bad.json" then .content "\x7b invalid json \x7d"
  else .notFound

/-- A configuration with the credential absent. -/
def exCfgNoKey : Config := { apiKey := none, model := "gpt-4.1", timeout := 60 }

/-- A file system holding syntactically valid JSON files of assorted shapes:
a bare string, a bare number, and an array of objects lacking the `value`
key. -/
def exFSOdd : FS := fun p =>
  if p = "str.json" then .content "\"hello\""
  else if p = "num.json" then .content "3"
  else if p = "noval.json" then .content "[\x7b\x7d]"
  else .notFound

/-- The raw JSON text of §8 scenario 4: `case_1` without `subcategory`. -/
def c2RawText : String :=
  "\x7b\"case_1\":\x7b\"category\":\"Issue Type\"\x7d, \"case_2\":[], \"case_3\":[]\x7d"

/-! ## Claims -/

/-- C1: the claim says the pipeline flattens the nested taxonomy before
prompting and that `classify` receives the flattened path sequence.  The
spec-modelled `flatten` does return exactly
`[["Issue Type", "Bug"], ["Issue Type", "Feature Request"]]` on the scenario
taxonomy, but no flatten exists in the repository: `main` hands `classify` the
raw parsed taxonomy, so the prompt renders the dict keys
`"value > subcategories"` instead of the flattened paths. -/
theorem c1_flatten_missing_main_passes_raw_taxonomy :
    flatten exForest = [["Issue Type", "Bug"], ["Issue Type", "Feature Request"]] ∧
    pyRenderPaths exRawTaxonomy = some "value > subcategories" ∧
    pathsStrOf (flatten exForest) = "Issue Type > Bug\nIssue Type > Feature Request" ∧
    pyRenderPaths exRawTaxonomy ≠ some (pathsStrOf (flatten exForest)) ∧
    (mainRun exFS "ticket.txt" "categories.json" exCfg exGoodOutcome).requests.map
        Request.messages
      = [buildMessagesStr "App crashes on login" "value > subcategories"] := by
  have hf : flatten exForest = [["Issue Type", "Bug"], ["Issue Type", "Feature Request"]] := by
    simp [flatten, exForest]
  refine ⟨hf, rfl, ?_, ?_, rfl⟩
  · rw [hf]
    rfl
  · rw [hf]
    decide

/-- C2 counterexample: on the §8 scenario-4 response text (valid JSON whose
`case_1` lacks `subcategory`), `classify` returns the parsed partial dict as a
success — a best-effort result, not a `ValidationError` (no validation code
exists in the repository). -/
theorem c2_no_validation_partial_result_returned :
    (classify exClient "t" [] (.success (some ("classify_ticket", c2RawText)))).2
      = .ok (Json.obj
          [("case_1", Json.obj [("category", Json.str "Issue Type")]),
           ("case_2", Json.arr []),
           ("case_3", Json.arr [])]) := rfl

/-- C2 amended: the result step is `json.loads` alone — text that is not
valid JSON raises `json.JSONDecodeError`, and any syntactically valid JSON is
returned as-is with no check of required fields. -/
theorem c2_parse_is_json_loads_only (client : Client) (t : String)
    (paths : List (List String)) (name raw : String) :
    (jsonParse raw = none →
      (classify client t paths (.success (some (name, raw)))).2 = .error .jsonDecodeError) ∧
    (∀ v, jsonParse raw = some v →
      (classify client t paths (.success (some (name, raw)))).2 = .ok v) := by
  constructor
  · intro h
    simp [classify, classifyCore, h]
  · intro v h
    simp [classify, classifyCore, h]

/-- C2 amended, witness: invalid JSON text raises the decode error; the empty
object (valid JSON missing every required field) is returned untouched. -/
theorem c2_parse_is_json_loads_only_witness :
    (classify exClient "t" [] (.success (some ("classify_ticket", "not json")))).2
      = .error .jsonDecodeError ∧
    (classify exClient "t" [] (.success (some ("classify_ticket", "\x7b\x7d")))).2
      = .ok (Json.obj []) :=
  ⟨(c2_parse_is_json_loads_only exClient "t" [] "classify_ticket" "not json").1 rfl,
   (c2_parse_is_json_loads_only exClient "t" [] "classify_ticket" "\x7b\x7d").2
     (Json.obj []) rfl⟩

/-- C3 counterexample: when the service call times out, `classify` propagates
the SDK timeout exception unchanged; the failure value is identical for a
60-second and a 61-second configured timeout, so it does not carry the
configured timeout value as `ClassificationTimeoutError(60)` would (no such
class exists in the repository). -/
theorem c3_timeout_not_wrapped :
    (classify exClient "t" [] .timeout).2 = .error .apiTimeoutError ∧
    (classify exClient "t" [] .timeout).2 = (classify exClient61 "t" [] .timeout).2 := ⟨rfl, rfl⟩

/-- C3 amended: `classify` has no error handling of its own — a timeout
propagates as the SDK timeout exception, a transport fault as the SDK status
exception, a response without a function invocation raises `AttributeError`
(attribute access on `None`), and an invocation targeting the wrong function
is not detected at all: its arguments are parsed and returned as a success. -/
theorem c3_errors_propagate_unwrapped (client : Client) (t : String)
    (paths : List (List String)) :
    (classify client t paths .timeout).2 = .error .apiTimeoutError ∧
    (∀ s, (classify client t paths (.transportFault s)).2 = .error (.apiStatusError s)) ∧
    (classify client t paths (.success none)).2 = .error .attributeError ∧
    (∀ name raw v, jsonParse raw = some v →
      (classify client t paths (.success (some (name, raw)))).2 = .ok v) := by
  refine ⟨rfl, fun s => rfl, rfl, fun name raw v h => ?_⟩
  simp [classify, classifyCore, h]

/-- C3 amended, witness: a response invoking a wrong function name is accepted
and parsed as a success. -/
theorem c3_errors_propagate_unwrapped_witness :
    (classify exClient "t" [] (.success (some ("totally_wrong_function", "\x7b\x7d")))).2
      = .ok (Json.obj []) :=
  (c3_errors_propagate_unwrapped exClient "t" []).2.2.2 "totally_wrong_function" "\x7b\x7d"
    (Json.obj []) rfl

/-- C4: the structured-output schema declares object type with the three
top-level properties `case_1`, `case_2`, `case_3` all required; `case_1`
requires string fields `category` and `subcategory`; `case_2` items require
`category`, `subcategories` (array of strings) and `reason` (array of
strings); `case_3` items require `category`, `subcategories` (array of
strings) and `comment` (string). -/
theorem c4_function_schema_required_fields :
    jGet function_schema "name" = some (Json.str "classify_ticket") ∧
    jPath function_schema ["parameters", "type"] = some (Json.str "object") ∧
    jPath function_schema ["parameters", "required"]
      = some (Json.arr [Json.str "case_1", Json.str "case_2", Json.str "case_3"]) ∧
    jPath function_schema ["parameters", "properties", "case_1", "type"]
      = some (Json.str "object") ∧
    jPath function_schema ["parameters", "properties", "case_1", "required"]
      = some (Json.arr [Json.str "category", Json.str "subcategory"]) ∧
    jPath function_schema
        ["parameters", "properties", "case_1", "properties", "category", "type"]
      = some (Json.str "string") ∧
    jPath function_schema
        ["parameters", "properties", "case_1", "properties", "subcategory", "type"]
      = some (Json.str "string") ∧
    jPath function_schema ["parameters", "properties", "case_2", "type"]
      = some (Json.str "array") ∧
    jPath function_schema ["parameters", "properties", "case_2", "items", "required"]
      = some (Json.arr [Json.str "category", Json.str "subcategories", Json.str "reason"]) ∧
    jPath function_schema
        ["parameters", "properties", "case_2", "items", "properties", "category", "type"]
      = some (Json.str "string") ∧
    jPath function_schema
        ["parameters", "properties", "case_2", "items", "properties", "subcategories", "type"]
      = some (Json.str "array") ∧
    jPath function_schema
        ["parameters", "properties", "case_2", "items", "properties", "subcategories",
         "items", "type"]
      = some (Json.str "string") ∧
    jPath function_schema
        ["parameters", "properties", "case_2", "items", "properties", "reason", "type"]
      = some (Json.str "array") ∧
    jPath function_schema
        ["parameters", "properties", "case_2", "items", "properties", "reason", "items",
         "type"]
      = some (Json.str "string") ∧
    jPath function_schema ["parameters", "properties", "case_3", "type"]
      = some (Json.str "array") ∧
    jPath function_schema ["parameters", "properties", "case_3", "items", "required"]
      = some (Json.arr [Json.str "category", Json.str "subcategories", Json.str "comment"]) ∧
    jPath function_schema
        ["parameters", "properties", "case_3", "items", "properties", "category", "type"]
      = some (Json.str "string") ∧
    jPath function_schema
        ["parameters", "properties", "case_3", "items", "properties", "subcategories", "type"]
      = some (Json.str "array") ∧
    jPath function_schema
        ["parameters", "properties", "case_3", "items", "properties", "subcategories",
         "items", "type"]
      = some (Json.str "string") ∧
    jPath function_schema
        ["parameters", "properties", "case_3", "items", "properties", "comment", "type"]
      = some (Json.str "string") :=
  ⟨rfl, rfl, rfl, rfl, rfl, rfl, rfl, rfl, rfl, rfl,
   rfl, rfl, rfl, rfl, rfl, rfl, rfl, rfl, rfl, rfl⟩

/-- C5: every invocation of `classify` issues exactly one request, whatever
the service outcome (so no internal retry on any failure), and that request
carries temperature zero, the single function schema, and the forced
invocation of `classify_ticket`. -/
theorem c5_single_request_temperature_zero_forced_function (client : Client)
    (t : String) (paths : List (List String)) (outcome : ApiOutcome) :
    (classify client t paths outcome).1 =
      [{ model := client.model
         messages := build_messages t paths
         functions := [function_schema]
         functionCallName := "classify_ticket"
         temperature := 0
         timeoutSeconds := client.timeout }] := rfl

/-- C6: prompt construction is pure and deterministic — equal inputs give
equal messages — the schema is a fixed constant, the ticket text appears
verbatim between the fixed template parts, and the category paths render as
their elements joined by " > ", one path per line. -/
theorem c6_build_messages_deterministic_verbatim (t t' : String)
    (p p' : List (List String)) (ht : t = t') (hp : p = p') :
    build_messages t p = build_messages t' p' ∧
    build_messages t p =
      [("system", "You are a ticket classification assistant."),
       ("user", promptPre ++ t ++ promptMid ++
         String.intercalate "\n" (p.map (fun path => String.intercalate " > " path)) ++
         promptSuf)] := by
  subst ht hp
  exact ⟨rfl, rfl⟩

/-- C6 witness at a concrete ticket and path list. -/
theorem c6_build_messages_deterministic_verbatim_witness :
    build_messages "App crashes on login" [["Issue Type", "Bug"]]
      = build_messages "App crashes on login" [["Issue Type", "Bug"]] ∧
    build_messages "App crashes on login" [["Issue Type", "Bug"]] =
      [("system", "You are a ticket classification assistant."),
       ("user", promptPre ++ "App crashes on login" ++ promptMid ++
         String.intercalate "\n"
           ([["Issue Type", "Bug"]].map (fun path => String.intercalate " > " path)) ++
         promptSuf)] :=
  c6_build_messages_deterministic_verbatim "App crashes on login" "App crashes on login"
    [["Issue Type", "Bug"]] [["Issue Type", "Bug"]] rfl rfl

/-- C7: every run of `main` either succeeds with exit code 0 and nothing on
stderr, or fails with exit code 1 and exactly one error line on stderr; a
nonexistent ticket file yields `TicketLoadError` and exit code 1, and a
categories file of invalid JSON yields `CategoriesLoadError` and exit code
1. -/
theorem c7_exit_codes_and_error_stream (fs : FS) (tp cp : String) (cfg : Config)
    (o : ApiOutcome) :
    ((mainRun fs tp cp cfg o).exitCode = 0 ∧ (mainRun fs tp cp cfg o).stderrLines = [] ∨
      (mainRun fs tp cp cfg o).exitCode = 1 ∧
        ∃ m, (mainRun fs tp cp cfg o).stderrLines = [m]) ∧
    (fs tp = .notFound →
      load_data fs tp cp = .error (.ticketLoadError ("Ticket file not found: " ++ tp)) ∧
      mainRun fs tp cp cfg o =
        { exitCode := 1, stderrLines := ["Error: " ++ ("Ticket file not found: " ++ tp)],
          requests := [] }) ∧
    (∀ s c, fs tp = .content s → fs cp = .content c → jsonParse c = none →
      load_data fs tp cp = .error (.categoriesLoadError ("Error loading categories: " ++ cp)) ∧
      mainRun fs tp cp cfg o =
        { exitCode := 1, stderrLines := ["Error: " ++ ("Error loading categories: " ++ cp)],
          requests := [] }) := by
  refine ⟨?_, ?_, ?_⟩
  · unfold mainRun
    split
    · exact Or.inr ⟨rfl, _, rfl⟩
    · split
      · exact Or.inr ⟨rfl, _, rfl⟩
      · split
        · exact Or.inr ⟨rfl, _, rfl⟩
        · split
          · exact Or.inr ⟨rfl, _, rfl⟩
          · exact Or.inl ⟨rfl, rfl⟩
  · intro h
    have hlt : load_ticket fs tp = .error (.ticketLoadError ("Ticket file not found: " ++ tp)) := by
      simp [load_ticket, h]
    have hld : load_data fs tp cp
        = .error (.ticketLoadError ("Ticket file not found: " ++ tp)) := by
      simp [load_data, load_dataT, hlt]
    exact ⟨hld, by simp [mainRun, hld, loadErrMsg]⟩
  · intro s c hs hc hj
    have hlt : load_ticket fs tp = .ok s := by simp [load_ticket, hs]
    have hlc : load_categories fs cp
        = .error (.categoriesLoadError ("Error loading categories: " ++ cp)) := by
      simp [load_categories, hc, hj]
    have hld : load_data fs tp cp
        = .error (.categoriesLoadError ("Error loading categories: " ++ cp)) := by
      simp [load_data, load_dataT, hlt, hlc]
    exact ⟨hld, by simp [mainRun, hld, loadErrMsg]⟩

/-- C7 witness: a missing ticket file and an invalid-JSON categories file each
exit with code 1 and one stderr line; the well-formed end-to-end run exits
with code 0. -/
theorem c7_exit_codes_and_error_stream_witness :
    mainRun exFS "missing.txt" "categories.json" exCfg exGoodOutcome =
      { exitCode := 1,
        stderrLines := ["Error: " ++ ("Ticket file not found: " ++ "missing.txt")],
        requests := [] } ∧
    mainRun exFSBad "ticket.txt" "bad.json" exCfg exGoodOutcome =
      { exitCode := 1,
        stderrLines := ["Error: " ++ ("Error loading categories: " ++ "bad.json")],
        requests := [] } ∧
    (mainRun exFS "ticket.txt" "categories.json" exCfg exGoodOutcome).exitCode = 0 :=
  ⟨((c7_exit_codes_and_error_stream exFS "missing.txt" "categories.json" exCfg
      exGoodOutcome).2.1 rfl).2,
   ((c7_exit_codes_and_error_stream exFSBad "ticket.txt" "bad.json" exCfg
      exGoodOutcome).2.2 "Hi" "\x7b invalid json \x7d" rfl rfl rfl).2,
   rfl⟩

/-- C8: with no API credential in the configuration, client construction
fails (the SDK constructor refuses a missing key), the run exits with code 1,
and no request is ever sent to the LLM service. -/
theorem c8_missing_credential_fails_before_any_request (fs : FS) (tp cp : String)
    (cfg : Config) (o : ApiOutcome) (h : cfg.apiKey = none) :
    llmClientInit cfg = .error .openAIError ∧
    (mainRun fs tp cp cfg o).requests = [] ∧
    (mainRun fs tp cp cfg o).exitCode = 1 := by
  have hinit : llmClientInit cfg = .error .openAIError := by simp [llmClientInit, h]
  refine ⟨hinit, ?_⟩
  unfold mainRun
  cases hld : load_data fs tp cp with
  | error e => exact ⟨rfl, rfl⟩
  | ok tc => rw [hinit]; exact ⟨rfl, rfl⟩

/-- C8 witness at a concrete run with the credential absent. -/
theorem c8_missing_credential_fails_before_any_request_witness :
    llmClientInit exCfgNoKey = .error .openAIError ∧
    (mainRun exFS "ticket.txt" "categories.json" exCfgNoKey exGoodOutcome).requests = [] ∧
    (mainRun exFS "ticket.txt" "categories.json" exCfgNoKey exGoodOutcome).exitCode = 1 :=
  c8_missing_credential_fails_before_any_request exFS "ticket.txt" "categories.json"
    exCfgNoKey exGoodOutcome rfl

/-- C9: `load_data` reads the ticket file first — if the ticket load fails it
raises that `TicketLoadError` having opened only the ticket path, and a
`CategoriesLoadError` outcome implies the ticket file was read successfully
in full. -/
theorem c9_load_data_sequential (fs : FS) (tp cp : String) :
    (∀ e, load_ticket fs tp = .error e →
      load_dataT fs tp cp = (.error e, [tp]) ∧ ∃ m, e = .ticketLoadError m) ∧
    (∀ m, load_data fs tp cp = .error (.categoriesLoadError m) →
      ∃ t, load_ticket fs tp = .ok t ∧ fs tp = .content t) := by
  constructor
  · intro e he
    refine ⟨by simp [load_dataT, he], ?_⟩
    cases hf : fs tp with
    | content s => simp [load_ticket, hf] at he
    | notFound =>
      simp [load_ticket, hf] at he
      exact ⟨_, he.symm⟩
    | osError =>
      simp [load_ticket, hf] at he
      exact ⟨_, he.symm⟩
  · intro m hm
    cases hf : fs tp with
    | content s => exact ⟨s, by simp [load_ticket, hf], rfl⟩
    | notFound => simp [load_data, load_dataT, load_ticket, hf] at hm
    | osError => simp [load_data, load_dataT, load_ticket, hf] at hm

/-- C9 witness: with the ticket file missing, only the ticket path is opened;
with a bad categories file, the ticket text was read in full. -/
theorem c9_load_data_sequential_witness :
    load_dataT exFS "missing.txt" "categories.json" =
      (.error (.ticketLoadError ("Ticket file not found: " ++ "missing.txt")),
       ["missing.txt"]) ∧
    ∃ t, load_ticket exFSBad "ticket.txt" = .ok t ∧ exFSBad "ticket.txt" = .content t :=
  ⟨((c9_load_data_sequential exFS "missing.txt" "categories.json").1
      (.ticketLoadError ("Ticket file not found: " ++ "missing.txt")) rfl).1,
   (c9_load_data_sequential exFSBad "ticket.txt" "bad.json").2
     ("Error loading categories: " ++ "bad.json") rfl⟩

/-- C10: `load_categories` enforces no shape on the taxonomy — any
syntactically valid JSON value parses to a success, and an error arises only
from a filesystem failure or a JSON syntax error. -/
theorem c10_load_categories_shape_agnostic (fs : FS) (path : String) :
    (∀ c v, fs path = .content c → jsonParse c = some v →
      load_categories fs path = .ok v) ∧
    (∀ e, load_categories fs path = .error e →
      fs path = .notFound ∨ fs path = .osError ∨
      ∃ c, fs path = .content c ∧ jsonParse c = none) := by
  constructor
  · intro c v hc hv
    simp [load_categories, hc, hv]
  · intro e he
    cases hf : fs path with
    | notFound => exact Or.inl rfl
    | osError => exact Or.inr (Or.inl rfl)
    | content s =>
      refine Or.inr (Or.inr ⟨s, rfl, ?_⟩)
      cases hj : jsonParse s with
      | some v => simp [load_categories, hf, hj] at he
      | none => rfl

/-- C10 witness: a bare JSON string, a bare number, and an array of objects
without the `value` key all load successfully. -/
theorem c10_load_categories_shape_agnostic_witness :
    load_categories exFSOdd "str.json" = .ok (Json.str "hello") ∧
    load_categories exFSOdd "num.json" = .ok (Json.num 3) ∧
    load_categories exFSOdd "noval.json" = .ok (Json.arr [Json.obj []]) :=
  ⟨(c10_load_categories_shape_agnostic exFSOdd "str.json").1 "\"hello\""
     (Json.str "hello") rfl rfl,
   (c10_load_categories_shape_agnostic exFSOdd "num.json").1 "3" (Json.num 3) rfl rfl,
   (c10_load_categories_shape_agnostic exFSOdd "noval.json").1 "[\x7b\x7d]"
     (Json.arr [Json.obj []]) rfl rfl⟩

end TicketCat
